import Mathlib

/-
Verification of the parametric geometry derivation, parameter validation,
boundary classification and staged-construction logic of the two LUSAS
model-generation scripts (bridge abutment and tunnel).

Scalar dimensions are embedded as rationals; geometry coordinates are exact
in both scripts, and the arithmetic performed on them (sums, differences,
one guarded division) is modelled exactly.
-/

namespace LusasScripts

/-- Named scalar dimension inputs of the bridge-abutment script
(the module-level variables `d, t, s, w, h1, h2, h3, h4, f, b`). -/
structure DimensionSet where
  d : ℚ
  t : ℚ
  s : ℚ
  w : ℚ
  h1 : ℚ
  h2 : ℚ
  h3 : ℚ
  h4 : ℚ
  f : ℚ
  b : ℚ
deriving DecidableEq

/-- Default dimension values hard-coded in the abutment script
(`d = 12.0, t = 3.0, s = 5.0, w = 30.0, h3 = 5, h4 = 3.5, h1 = 8.0,
h2 = 11.5, f = 5.0, b = 1.5`). -/
def defaultDims : DimensionSet :=
  { d := 12, t := 3, s := 5, w := 30, h1 := 8, h2 := 23/2, h3 := 5,
    h4 := 7/2, f := 5, b := 3/2 }

/-- Tags for the fifteen validation error messages appended to `errors`,
one per `if ...: errors.append(...)` statement, in source order. -/
inductive ErrMsg where
  | errD
  | errT
  | errS
  | errWmin
  | errWmax
  | errH1min
  | errH1lt
  | errH2min
  | errH2max
  | errH3
  | errH4min
  | errH4lt
  | errFmin
  | errFlt
  | errB
deriving DecidableEq, Repr

/-- The validator of the abutment script: the list `errors` built by the
sequence of fifteen conditional `append` statements, in source order.
Each segment contributes its message exactly when its condition holds. -/
def errors (p : DimensionSet) : List ErrMsg :=
  (if ¬(3 ≤ p.d ∧ p.d ≤ 100) then [ErrMsg.errD] else []) ++
  (if ¬(1 ≤ p.t ∧ p.t ≤ 100) then [ErrMsg.errT] else []) ++
  (if ¬(1 ≤ p.s ∧ p.s ≤ 10) then [ErrMsg.errS] else []) ++
  (if p.w < p.d + p.t + p.s + 2 then [ErrMsg.errWmin] else []) ++
  (if p.w > 100 then [ErrMsg.errWmax] else []) ++
  (if p.h1 < 1 then [ErrMsg.errH1min] else []) ++
  (if p.h1 ≥ p.h2 then [ErrMsg.errH1lt] else []) ++
  (if p.h2 < p.h1 + 2 then [ErrMsg.errH2min] else []) ++
  (if p.h2 > 100 then [ErrMsg.errH2max] else []) ++
  (if ¬(2 ≤ p.h3 ∧ p.h3 ≤ 100) then [ErrMsg.errH3] else []) ++
  (if p.h4 < 1 then [ErrMsg.errH4min] else []) ++
  (if p.h4 ≥ p.h3 - 1 then [ErrMsg.errH4lt] else []) ++
  (if p.f < 1 then [ErrMsg.errFmin] else []) ++
  (if p.f ≥ p.d - 2 then [ErrMsg.errFlt] else []) ++
  (if ¬(1 ≤ p.b ∧ p.b ≤ 2) then [ErrMsg.errB] else [])

/-- The slope x-intercept of the abutment script:
`x_value = t`, overridden with
`t + ((h2 - h1) / (h2 + h3 - h4 - h1)) * (w - d - s - t)`
when `(h2 + h3 - h4 - h1) != 0`. -/
def x_value (p : DimensionSet) : ℚ :=
  if p.h2 + p.h3 - p.h4 - p.h1 ≠ 0 then
    p.t + ((p.h2 - p.h1) / (p.h2 + p.h3 - p.h4 - p.h1)) * (p.w - p.d - p.s - p.t)
  else
    p.t

/-- The fifteen validation rules in their declaration order in the source
(the `d` rule first, then `t`, `s`, the two `w` rules, the two `h1` rules,
the two `h2` rules, `h3`, the two `h4` rules, the two `f` rules, `b`). -/
def ruleOrder : List ErrMsg :=
  [ErrMsg.errD, ErrMsg.errT, ErrMsg.errS, ErrMsg.errWmin, ErrMsg.errWmax,
   ErrMsg.errH1min, ErrMsg.errH1lt, ErrMsg.errH2min, ErrMsg.errH2max,
   ErrMsg.errH3, ErrMsg.errH4min, ErrMsg.errH4lt, ErrMsg.errFmin,
   ErrMsg.errFlt, ErrMsg.errB]

/-- The documented constraint violation corresponding to each error message:
`violatesB p m = true` exactly when the validation rule tagged `m` fires
on the dimension set `p`. -/
def violatesB (p : DimensionSet) : ErrMsg → Bool
  | ErrMsg.errD => decide (¬(3 ≤ p.d ∧ p.d ≤ 100))
  | ErrMsg.errT => decide (¬(1 ≤ p.t ∧ p.t ≤ 100))
  | ErrMsg.errS => decide (¬(1 ≤ p.s ∧ p.s ≤ 10))
  | ErrMsg.errWmin => decide (p.w < p.d + p.t + p.s + 2)
  | ErrMsg.errWmax => decide (p.w > 100)
  | ErrMsg.errH1min => decide (p.h1 < 1)
  | ErrMsg.errH1lt => decide (p.h1 ≥ p.h2)
  | ErrMsg.errH2min => decide (p.h2 < p.h1 + 2)
  | ErrMsg.errH2max => decide (p.h2 > 100)
  | ErrMsg.errH3 => decide (¬(2 ≤ p.h3 ∧ p.h3 ≤ 100))
  | ErrMsg.errH4min => decide (p.h4 < 1)
  | ErrMsg.errH4lt => decide (p.h4 ≥ p.h3 - 1)
  | ErrMsg.errFmin => decide (p.f < 1)
  | ErrMsg.errFlt => decide (p.f ≥ p.d - 2)
  | ErrMsg.errB => decide (¬(1 ≤ p.b ∧ p.b ≤ 2))

/-- The conjunction of all documented constraints on a `DimensionSet`
(`3 ≤ d ≤ 100`, `1 ≤ t ≤ 100`, `1 ≤ s ≤ 10`, `d+t+s+2 ≤ w ≤ 100`,
`1 ≤ h1 < h2`, `h1+2 ≤ h2 ≤ 100`, `2 ≤ h3 ≤ 100`, `1 ≤ h4 < h3-1`,
`1 ≤ f < d-2`, `1 ≤ b ≤ 2`). -/
def Valid (p : DimensionSet) : Prop :=
  (3 ≤ p.d ∧ p.d ≤ 100) ∧ (1 ≤ p.t ∧ p.t ≤ 100) ∧ (1 ≤ p.s ∧ p.s ≤ 10) ∧
  (p.d + p.t + p.s + 2 ≤ p.w) ∧ (p.w ≤ 100) ∧ (1 ≤ p.h1) ∧ (p.h1 < p.h2) ∧
  (p.h1 + 2 ≤ p.h2) ∧ (p.h2 ≤ 100) ∧ (2 ≤ p.h3 ∧ p.h3 ≤ 100) ∧
  (1 ≤ p.h4) ∧ (p.h4 < p.h3 - 1) ∧ (1 ≤ p.f) ∧ (p.f < p.d - 2) ∧
  (1 ≤ p.b ∧ p.b ≤ 2)

/-- Point in the model's vertical plane; the third coordinate is always 0
in both scripts and carries no information, so it is omitted. -/
structure Point2D where
  x : ℚ
  y : ℚ
deriving DecidableEq

/-- One edge of a generated surface outline, as read back from the external
application via `getStartPoint()` and `getEndPoint()`. -/
structure BoundaryEdge where
  startPoint : Point2D
  endPoint : Point2D
deriving DecidableEq

/-- Swapping the start and end points of an edge. -/
def swapEdge (e : BoundaryEdge) : BoundaryEdge :=
  { startPoint := e.endPoint, endPoint := e.startPoint }

/-- The four quadrant buckets of `identify_quadrants` in the tunnel script. -/
inductive Quadrant where
  | leftTop
  | rightTop
  | leftBottom
  | rightBottom
deriving DecidableEq, Repr

/-- The per-line classification performed inside the loop of
`identify_quadrants` in the tunnel script:
`is_top = (sy == radius or ey == radius)`,
`is_left = (sx == -radius or ex == -radius)`, then the dict key is chosen
by `is_top` and `is_left`. -/
def classify_quadrant (radius : ℚ) (e : BoundaryEdge) : Quadrant :=
  if e.startPoint.y = radius ∨ e.endPoint.y = radius then
    if e.startPoint.x = -radius ∨ e.endPoint.x = -radius then
      Quadrant.leftTop
    else
      Quadrant.rightTop
  else
    if e.startPoint.x = -radius ∨ e.endPoint.x = -radius then
      Quadrant.leftBottom
    else
      Quadrant.rightBottom

/-- Line-mesh role buckets used by the abutment script: the beam-meshed
wall lines (attribute `wall`, size `BMI3`) versus the null-meshed lines
(attribute `EL 1`). -/
inductive LineRole where
  | wall
  | el1
deriving DecidableEq, Repr

/-- The classifier over the lines of surface 2 in the abutment script:
a line is a wall line when its start x is `w-d-b` and its end x is `w-d`,
or its start x is `w-d` and its end x is `w-d-b`; otherwise it gets the
`EL 1` mesh. -/
def surf2_line_role (w d b : ℚ) (e : BoundaryEdge) : LineRole :=
  if e.startPoint.x = w - d - b ∧ e.endPoint.x = w - d then
    LineRole.wall
  else if e.startPoint.x = w - d ∧ e.endPoint.x = w - d - b then
    LineRole.wall
  else
    LineRole.el1

/-- The classifier over the lines of surface 3 in the abutment script:
a line touching `x = w-d` at either endpoint is a wall line unless either
endpoint is at `x = w-d+f`; every other line gets the `EL 1` mesh. -/
def surf3_line_role (w d f : ℚ) (e : BoundaryEdge) : LineRole :=
  if e.startPoint.x = w - d ∨ e.endPoint.x = w - d then
    if e.startPoint.x ≠ w - d + f ∧ e.endPoint.x ≠ w - d + f then
      LineRole.wall
    else
      LineRole.el1
  else
    LineRole.el1

/-- Support role buckets of the abutment script: the fully fixed base
(`FixXY`), the horizontally fixed sides (`FixX`), and lines receiving no
support assignment (free). -/
inductive SupportRole where
  | fixXY
  | fixX
  | free
deriving DecidableEq, Repr

/-- The support classifier over the lines of surface 1 in the abutment
script: both endpoints at `y = 0` gives `FixXY`; both endpoints at `x = 0`
or both at `x = w` gives `FixX`; the `if/elif` chain has no final `else`,
so any other line receives no support (the free bucket). -/
def surf1_support_role (w : ℚ) (e : BoundaryEdge) : SupportRole :=
  if e.startPoint.y = 0 ∧ e.endPoint.y = 0 then
    SupportRole.fixXY
  else if e.startPoint.x = 0 ∧ e.endPoint.x = 0 then
    SupportRole.fixX
  else if e.startPoint.x = w ∧ e.endPoint.x = w then
    SupportRole.fixX
  else
    SupportRole.free

/-- Names of the three construction stages configured by the tunnel script
(Loadcase 1, Loadcase 2, Loadcase 3). -/
inductive StageName where
  | initial
  | liningInstallation
  | excavation
deriving DecidableEq, Repr

/-- One stage descriptor: the stage name together with the elements the
stage deactivates and activates. -/
structure Stage (α : Type) where
  name : StageName
  deactivated : List α
  activated : List α
deriving DecidableEq

/-- The excavation sequence configured by the tunnel script, abstracted
over the element handles: Loadcase 1 deactivates the lining lines and the
four quadrant lines (`Deact1`), Loadcase 2 activates exactly those elements
(`Act1`), Loadcase 3 deactivates the tunnel-interior surface (`Deact2`).
The sequence does not depend on the dimension parameters. -/
def excavation_sequence {α : Type} (lining_lines quadrant_lines : List α)
    (tunnel_surface : α) : List (Stage α) :=
  [{ name := StageName.initial,
     deactivated := lining_lines ++ quadrant_lines, activated := [] },
   { name := StageName.liningInstallation,
     deactivated := [], activated := lining_lines ++ quadrant_lines },
   { name := StageName.excavation,
     deactivated := [tunnel_surface], activated := [] }]

/-- Observable events of a script run: printing the collected validation
messages, exiting the process with a code, issuing a call into the external
modelling application, and raising an exception. -/
inductive Event where
  | printed (msgs : List ErrMsg)
  | exited (code : ℕ)
  | externalCall (callee : String)
  | raised (msg : String)
deriving DecidableEq

/-- State of the external application when a script starts: whether a
database exists and whether it is in a modified (unsaved) state. -/
structure LusasState where
  existsDatabase : Bool
  isModified : Bool
deriving DecidableEq

/-- Calls the abutment script issues into the external application once
model creation begins, in source order. -/
def abutmentModelCalls : List Event :=
  [Event.externalCall "newProject", Event.externalCall "getDatabase",
   Event.externalCall "setVisible", Event.externalCall "enableUI",
   Event.externalCall "setAnalysisCategory", Event.externalCall "setVerticalDir",
   Event.externalCall "setModelUnits",
   Event.externalCall "create_surface_by_coordinates",
   Event.externalCall "create_surface_by_coordinates",
   Event.externalCall "create_surface_by_coordinates",
   Event.externalCall "createMeshSurface", Event.externalCall "createMeshLine",
   Event.externalCall "updateMesh",
   Event.externalCall "createSupportStructural",
   Event.externalCall "createIsotropicMaterial",
   Event.externalCall "createGeometricLine",
   Event.externalCall "createLoadingGlobalDistributed",
   Event.externalCall "getLoadset", Event.externalCall "save",
   Event.externalCall "solve", Event.externalCall "openAllResults"]

/-- The control flow of the abutment script as a trace of events: if the
validation error list is non-empty the script prints it and exits with
status 1 before any contact with the external application; otherwise it
connects, and refuses with an exception when an unsaved model is open,
else proceeds to model creation. -/
def abutment_script (p : DimensionSet) (st : LusasState) : List Event :=
  if errors p ≠ [] then
    [Event.printed (errors p), Event.exited 1]
  else
    Event.externalCall "get_lusas_modeller" ::
    (if st.existsDatabase && st.isModified then
      [Event.raised "Save or close the current model before running this code"]
    else
      abutmentModelCalls)

/-- Calls the tunnel script issues into the external application once
model creation begins, in source order (abridged to the top-level steps). -/
def tunnelModelCalls : List Event :=
  [Event.externalCall "newProject", Event.externalCall "getDatabase",
   Event.externalCall "setVisible", Event.externalCall "enableUI",
   Event.externalCall "setAnalysisCategory", Event.externalCall "setVerticalDir",
   Event.externalCall "setModelUnits",
   Event.externalCall "create_tunnel_circle",
   Event.externalCall "create_base_surface",
   Event.externalCall "create_tunnel_surface",
   Event.externalCall "create_refined_zones",
   Event.externalCall "apply_mesh_attributes",
   Event.externalCall "create_interface_joints",
   Event.externalCall "create_soil_material",
   Event.externalCall "create_concrete_material",
   Event.externalCall "apply_supports",
   Event.externalCall "createLoadcase", Event.externalCall "save",
   Event.externalCall "solve", Event.externalCall "openAllResults"]

/-- The control flow of the tunnel script as a trace of events: it connects
to the external application, raises an exception when a modified database
is open, and otherwise proceeds to model creation (the tunnel script has
no parameter validation). -/
def tunnel_script (st : LusasState) : List Event :=
  Event.externalCall "get_lusas_modeller" ::
  (if st.existsDatabase && st.isModified then
    [Event.raised "Please save or close the current model before running."]
  else
    tunnelModelCalls)

/-- A dimension set with a vanishing slope denominator
(`h2 + h3 - h4 - h1 = 5 + 5 - 2 - 8 = 0`), used to exercise the fallback
branch of `x_value`. -/
def zeroDenomDims : DimensionSet :=
  { d := 12, t := 3, s := 5, w := 30, h1 := 8, h2 := 5, h3 := 5,
    h4 := 2, f := 5, b := 3/2 }

/-- Helper: one step matching a conditional-singleton segment of the
validator against one step of a filter. -/
theorem seg_step {c : Prop} [Decidable c] {a : ErrMsg} {l1 l2 : List ErrMsg}
    (h : l1 = l2) :
    (if c then [a] else []) ++ l1 = if c then a :: l2 else l2 := by
  subst h
  split <;> simp

/-- Helper: a dimension set satisfying every documented constraint passes
every validation rule, so the validator list is empty. -/
theorem errors_nil_of_valid (p : DimensionSet) (h : Valid p) :
    errors p = [] := by
  obtain ⟨h1, h2, h3, h4, h5, h6, h7, h8, h9, h10, h11, h12, h13, h14, h15⟩ := h
  rw [errors, if_neg (not_not_intro h1), if_neg (not_not_intro h2),
    if_neg (not_not_intro h3), if_neg (not_lt.mpr h4),
    if_neg (show ¬(p.w > 100) from not_lt.mpr h5), if_neg (not_lt.mpr h6),
    if_neg (show ¬(p.h1 ≥ p.h2) from not_le.mpr h7), if_neg (not_lt.mpr h8),
    if_neg (show ¬(p.h2 > 100) from not_lt.mpr h9), if_neg (not_not_intro h10),
    if_neg (not_lt.mpr h11),
    if_neg (show ¬(p.h4 ≥ p.h3 - 1) from not_le.mpr h12),
    if_neg (not_lt.mpr h13),
    if_neg (show ¬(p.f ≥ p.d - 2) from not_le.mpr h14),
    if_neg (not_not_intro h15)]
  rfl

/-- C1: for every `DimensionSet`, when the denominator `h2+h3-h4-h1` is
non-zero, `x_value` equals `t + ((h2-h1)/(h2+h3-h4-h1)) * (w-d-s-t)`; when
the denominator is zero, `x_value` equals `t` (so the division is guarded
and never performed on a zero denominator); and at the script's concrete
inputs `h1=8, h2=11.5, h3=5, h4=3.5, d=12, s=5, t=3, w=30` it equals that
formula evaluated exactly. -/
theorem x_value_formula (p : DimensionSet) :
    (p.h2 + p.h3 - p.h4 - p.h1 ≠ 0 →
      x_value p = p.t + ((p.h2 - p.h1) / (p.h2 + p.h3 - p.h4 - p.h1)) *
        (p.w - p.d - p.s - p.t)) ∧
    (p.h2 + p.h3 - p.h4 - p.h1 = 0 → x_value p = p.t) ∧
    x_value defaultDims = defaultDims.t +
      ((defaultDims.h2 - defaultDims.h1) /
        (defaultDims.h2 + defaultDims.h3 - defaultDims.h4 - defaultDims.h1)) *
      (defaultDims.w - defaultDims.d - defaultDims.s - defaultDims.t) := by
  refine ⟨fun h => by rw [x_value, if_pos h], fun h => by rw [x_value, if_neg (not_not_intro h)], ?_⟩
  norm_num [x_value, defaultDims]

/-- C1 witness: both branches of the guard exercised at concrete inputs. -/
theorem x_value_formula_witness :
    x_value defaultDims = defaultDims.t +
      ((defaultDims.h2 - defaultDims.h1) /
        (defaultDims.h2 + defaultDims.h3 - defaultDims.h4 - defaultDims.h1)) *
      (defaultDims.w - defaultDims.d - defaultDims.s - defaultDims.t) ∧
    x_value zeroDenomDims = zeroDenomDims.t :=
  ⟨(x_value_formula defaultDims).1 (by norm_num [defaultDims]),
   (x_value_formula zeroDenomDims).2.1 (by norm_num [zeroDenomDims])⟩

/-- C2: the validator output is exactly the list of messages of the
violated validation rules, taken in the declaration order of the rules; in
particular a dimension set violating exactly one rule yields exactly its
one message, and one violating several rules yields one message per
violated rule, in declaration order. -/
theorem errors_eq_filter_ruleOrder (p : DimensionSet) :
    errors p = ruleOrder.filter (violatesB p) := by
  rw [errors, ruleOrder]
  simp only [List.filter_cons, List.filter_nil, violatesB, decide_eq_true_eq,
    List.append_assoc]
  refine seg_step (seg_step (seg_step (seg_step (seg_step (seg_step
    (seg_step (seg_step (seg_step (seg_step (seg_step (seg_step (seg_step
    (seg_step ?_)))))))))))))
  split <;> rfl

/-- C3: a dimension set satisfying all documented constraints produces an
empty error list, so the validator reports no errors. -/
theorem validator_accepts_valid (p : DimensionSet)
    (hd : 3 ≤ p.d ∧ p.d ≤ 100) (ht : 1 ≤ p.t ∧ p.t ≤ 100)
    (hs : 1 ≤ p.s ∧ p.s ≤ 10) (hw1 : p.d + p.t + p.s + 2 ≤ p.w)
    (hw2 : p.w ≤ 100) (hh1a : 1 ≤ p.h1) (hh1b : p.h1 < p.h2)
    (hh2a : p.h1 + 2 ≤ p.h2) (hh2b : p.h2 ≤ 100)
    (hh3 : 2 ≤ p.h3 ∧ p.h3 ≤ 100) (hh4a : 1 ≤ p.h4)
    (hh4b : p.h4 < p.h3 - 1) (hfa : 1 ≤ p.f) (hfb : p.f < p.d - 2)
    (hb : 1 ≤ p.b ∧ p.b ≤ 2) : errors p = [] :=
  errors_nil_of_valid p
    ⟨hd, ht, hs, hw1, hw2, hh1a, hh1b, hh2a, hh2b, hh3, hh4a, hh4b, hfa,
     hfb, hb⟩

/-- C3 witness: the script's default dimensions satisfy every constraint
and are accepted. -/
theorem validator_accepts_valid_witness : errors defaultDims = [] :=
  validator_accepts_valid defaultDims (by norm_num [defaultDims])
    (by norm_num [defaultDims]) (by norm_num [defaultDims])
    (by norm_num [defaultDims]) (by norm_num [defaultDims])
    (by norm_num [defaultDims]) (by norm_num [defaultDims])
    (by norm_num [defaultDims]) (by norm_num [defaultDims])
    (by norm_num [defaultDims]) (by norm_num [defaultDims])
    (by norm_num [defaultDims]) (by norm_num [defaultDims])
    (by norm_num [defaultDims]) (by norm_num [defaultDims])

/-- Helper: a dimension set accepted by the validator satisfies every
documented constraint. -/
theorem valid_of_errors_nil (p : DimensionSet) (h : errors p = []) :
    Valid p := by
  rw [errors_eq_filter_ruleOrder, List.filter_eq_nil_iff] at h
  have hd := h ErrMsg.errD (by simp [ruleOrder])
  have ht := h ErrMsg.errT (by simp [ruleOrder])
  have hs := h ErrMsg.errS (by simp [ruleOrder])
  have hw1 := h ErrMsg.errWmin (by simp [ruleOrder])
  have hw2 := h ErrMsg.errWmax (by simp [ruleOrder])
  have hh1a := h ErrMsg.errH1min (by simp [ruleOrder])
  have hh1b := h ErrMsg.errH1lt (by simp [ruleOrder])
  have hh2a := h ErrMsg.errH2min (by simp [ruleOrder])
  have hh2b := h ErrMsg.errH2max (by simp [ruleOrder])
  have hh3 := h ErrMsg.errH3 (by simp [ruleOrder])
  have hh4a := h ErrMsg.errH4min (by simp [ruleOrder])
  have hh4b := h ErrMsg.errH4lt (by simp [ruleOrder])
  have hfa := h ErrMsg.errFmin (by simp [ruleOrder])
  have hfb := h ErrMsg.errFlt (by simp [ruleOrder])
  have hb := h ErrMsg.errB (by simp [ruleOrder])
  simp only [violatesB, decide_eq_true_eq, not_not, not_lt, not_le, gt_iff_lt, ge_iff_le] at hd ht hs hw1 hw2 hh1a hh1b hh2a hh2b hh3 hh4a hh4b hfa hfb hb
  exact ⟨hd, ht, hs, hw1, hw2, hh1a, hh1b, hh2a, hh2b, hh3, hh4a, hh4b,
    hfa, hfb, hb⟩

/-- C9: for every dimension set accepted by the validator, the slope
denominator `h2 + h3 - h4 - h1` is at least 3 (hence non-zero and strictly
positive), so the zero-denominator fallback branch of `x_value` is
unreachable and `x_value` takes the division branch. -/
theorem denominator_positive_after_validation (p : DimensionSet)
    (h : errors p = []) :
    3 ≤ p.h2 + p.h3 - p.h4 - p.h1 ∧
    p.h2 + p.h3 - p.h4 - p.h1 ≠ 0 ∧
    x_value p = p.t + ((p.h2 - p.h1) / (p.h2 + p.h3 - p.h4 - p.h1)) *
      (p.w - p.d - p.s - p.t) := by
  obtain ⟨-, -, -, -, -, -, -, hh2a, -, -, -, hh4b, -, -, -⟩ :=
    valid_of_errors_nil p h
  have hge : 3 ≤ p.h2 + p.h3 - p.h4 - p.h1 := by linarith
  have hne : p.h2 + p.h3 - p.h4 - p.h1 ≠ 0 := by
    intro h0
    rw [h0] at hge
    norm_num at hge
  exact ⟨hge, hne, by rw [x_value, if_pos hne]⟩

/-- C9 witness: the default dimensions are accepted and their denominator
is `11.5 + 5 - 3.5 - 8 = 5 ≥ 3`, with `x_value` on the division branch. -/
theorem denominator_positive_after_validation_witness :
    3 ≤ defaultDims.h2 + defaultDims.h3 - defaultDims.h4 - defaultDims.h1 ∧
    defaultDims.h2 + defaultDims.h3 - defaultDims.h4 - defaultDims.h1 ≠ 0 ∧
    x_value defaultDims = defaultDims.t +
      ((defaultDims.h2 - defaultDims.h1) /
        (defaultDims.h2 + defaultDims.h3 - defaultDims.h4 - defaultDims.h1)) *
      (defaultDims.w - defaultDims.d - defaultDims.s - defaultDims.t) :=
  denominator_positive_after_validation defaultDims
    (by norm_num [errors, defaultDims])

/-- C10: for every dimension set accepted by the validator, the derived
slope x-intercept lies strictly between the slope toe and the slope crest:
`t < x_value < w - d - s`. -/
theorem x_value_strictly_between (p : DimensionSet) (h : errors p = []) :
    p.t < x_value p ∧ x_value p < p.w - p.d - p.s := by
  obtain ⟨-, -, -, hw1, -, -, -, hh2a, -, -, -, hh4b, -, -, -⟩ :=
    valid_of_errors_nil p h
  have hD : 0 < p.h2 + p.h3 - p.h4 - p.h1 := by linarith
  have hnum : 0 < p.h2 - p.h1 := by linarith
  have hlt : p.h2 - p.h1 < p.h2 + p.h3 - p.h4 - p.h1 := by linarith
  have hM : 0 < p.w - p.d - p.s - p.t := by linarith
  have hr0 : 0 < (p.h2 - p.h1) / (p.h2 + p.h3 - p.h4 - p.h1) :=
    div_pos hnum hD
  have hr1 : (p.h2 - p.h1) / (p.h2 + p.h3 - p.h4 - p.h1) < 1 :=
    (div_lt_one hD).mpr hlt
  rw [x_value, if_pos (ne_of_gt hD)]
  constructor
  · nlinarith [mul_pos hr0 hM]
  · nlinarith [mul_lt_mul_of_pos_right hr1 hM]

/-- C10 witness: at the default dimensions, `t = 3 < x_value = 10 <
w - d - s = 13`. -/
theorem x_value_strictly_between_witness :
    defaultDims.t < x_value defaultDims ∧
    x_value defaultDims < defaultDims.w - defaultDims.d - defaultDims.s :=
  x_value_strictly_between defaultDims (by norm_num [errors, defaultDims])

/-- An edge used to exercise the classifiers: the left-top quadrant arc of
a radius-3 tunnel, from the top cardinal point to the left cardinal point. -/
def edgeLeftTop : BoundaryEdge :=
  { startPoint := { x := 0, y := 3 }, endPoint := { x := -3, y := 0 } }

/-- C4: boundary classification is total and deterministic: each classifier
(the quadrant classifier of the tunnel script, the support classifier over
the surface-1 lines, and the mesh classifier over the surface-3 lines of
the abutment script) assigns every edge to exactly one bucket, and two runs
on the same edge with the same landmark values agree. -/
theorem classification_total_and_deterministic (radius w d f : ℚ)
    (e : BoundaryEdge) :
    (∃! q : Quadrant, classify_quadrant radius e = q) ∧
    (∃! r : SupportRole, surf1_support_role w e = r) ∧
    (∃! r : LineRole, surf3_line_role w d f e = r) ∧
    (∀ q1 q2 : Quadrant, classify_quadrant radius e = q1 →
      classify_quadrant radius e = q2 → q1 = q2) ∧
    (∀ r1 r2 : SupportRole, surf1_support_role w e = r1 →
      surf1_support_role w e = r2 → r1 = r2) ∧
    (∀ r1 r2 : LineRole, surf3_line_role w d f e = r1 →
      surf3_line_role w d f e = r2 → r1 = r2) :=
  ⟨⟨classify_quadrant radius e, rfl, fun _ hy => hy.symm⟩,
   ⟨surf1_support_role w e, rfl, fun _ hy => hy.symm⟩,
   ⟨surf3_line_role w d f e, rfl, fun _ hy => hy.symm⟩,
   fun _ _ h1 h2 => h1.symm.trans h2,
   fun _ _ h1 h2 => h1.symm.trans h2,
   fun _ _ h1 h2 => h1.symm.trans h2⟩

/-- C4 witness: totality and determinism instantiated at the left-top
quadrant arc of a radius-3 tunnel with the default abutment landmarks. -/
theorem classification_total_and_deterministic_witness :
    ∃! q : Quadrant, classify_quadrant 3 edgeLeftTop = q :=
  (classification_total_and_deterministic 3 30 12 5 edgeLeftTop).1

/-- C5: edge classification is orientation-independent: swapping the start
and end points of an edge changes neither its quadrant (tunnel script) nor
its mesh bucket on surface 2 or surface 3, nor its support bucket on
surface 1 (abutment script). -/
theorem classification_orientation_independent (radius w d b f : ℚ)
    (e : BoundaryEdge) :
    classify_quadrant radius (swapEdge e) = classify_quadrant radius e ∧
    surf2_line_role w d b (swapEdge e) = surf2_line_role w d b e ∧
    surf3_line_role w d f (swapEdge e) = surf3_line_role w d f e ∧
    surf1_support_role w (swapEdge e) = surf1_support_role w e := by
  refine ⟨?_, ?_, ?_, ?_⟩
  · rw [classify_quadrant, classify_quadrant, swapEdge]
    split_ifs <;> first | rfl | tauto
  · rw [surf2_line_role, surf2_line_role, swapEdge]
    split_ifs <;> first | rfl | tauto
  · rw [surf3_line_role, surf3_line_role, swapEdge]
    split_ifs <;> first | rfl | tauto
  · rw [surf1_support_role, surf1_support_role, swapEdge]
    split_ifs <;> first | rfl | tauto

/-- C6: the excavation sequencer produces exactly three ordered stages
(Initial, Lining Installation, Excavation) for any element handles, hence
for any input dimensions; the elements deactivated in stage 1 (the lining
lines plus the four quadrant lines) are exactly the elements activated in
stage 2, and stage 3 deactivates only the tunnel-interior surface. -/
theorem excavation_sequence_three_stages {α : Type}
    (lining quadLines : List α) (tunnelSurf : α) :
    ∃ s1 s2 s3 : Stage α,
      excavation_sequence lining quadLines tunnelSurf = [s1, s2, s3] ∧
      s1.name = StageName.initial ∧
      s2.name = StageName.liningInstallation ∧
      s3.name = StageName.excavation ∧
      s1.deactivated = lining ++ quadLines ∧
      s2.activated = s1.deactivated ∧
      s1.activated = [] ∧ s2.deactivated = [] ∧
      s3.deactivated = [tunnelSurf] ∧ s3.activated = [] :=
  ⟨_, _, _, rfl, rfl, rfl, rfl, rfl, rfl, rfl, rfl, rfl, rfl⟩

/-- C7: if any validation rule fails, the abutment script prints the
collected messages and exits with status 1 before any external call: its
trace is exactly the print followed by the exit, and contains no call into
the external application (in particular no geometry creation, attribute
creation, or solver call). -/
theorem validation_failure_aborts (p : DimensionSet) (st : LusasState)
    (h : errors p ≠ []) :
    abutment_script p st = [Event.printed (errors p), Event.exited 1] ∧
    Event.exited 1 ∈ abutment_script p st ∧
    ∀ callee : String, Event.externalCall callee ∉ abutment_script p st := by
  have htr : abutment_script p st =
      [Event.printed (errors p), Event.exited 1] := by
    rw [abutment_script, if_pos h]
  refine ⟨htr, ?_, ?_⟩
  · rw [htr]
    simp
  · intro callee
    rw [htr]
    simp

/-- A dimension set violating a single validation rule (`t = 0` lies
outside 1..100; all other inputs keep their script defaults). -/
def badDims : DimensionSet := { defaultDims with t := 0 }

/-- C7 witness: with `t = 0` the script prints the single `t` message and
exits with status 1, issuing no external call. -/
theorem validation_failure_aborts_witness :
    abutment_script badDims { existsDatabase := false, isModified := false } =
      [Event.printed (errors badDims), Event.exited 1] ∧
    Event.exited 1 ∈
      abutment_script badDims { existsDatabase := false, isModified := false } ∧
    ∀ callee : String, Event.externalCall callee ∉
      abutment_script badDims { existsDatabase := false, isModified := false } :=
  validation_failure_aborts badDims
    { existsDatabase := false, isModified := false }
    (by
      have h : errors badDims = [ErrMsg.errT] := by
        norm_num [errors, badDims, defaultDims]
      rw [h]
      exact List.cons_ne_nil _ _)

/-- C8: both scripts check the unsaved-model precondition once at the
start: when a database exists and is modified, each script's trace is
exactly the connection call followed by the raised exception, so no new
project is created and no further model-building call is issued. -/
theorem unsaved_model_guard (p : DimensionSet) (st : LusasState)
    (hdb : st.existsDatabase = true) (hmod : st.isModified = true)
    (hval : errors p = []) :
    tunnel_script st = [Event.externalCall "get_lusas_modeller",
      Event.raised "Please save or close the current model before running."] ∧
    abutment_script p st = [Event.externalCall "get_lusas_modeller",
      Event.raised "Save or close the current model before running this code"] ∧
    Event.externalCall "newProject" ∉ tunnel_script st ∧
    Event.externalCall "newProject" ∉ abutment_script p st := by
  have hcond : (st.existsDatabase && st.isModified) = true := by
    rw [hdb, hmod]
    rfl
  have ht : tunnel_script st = [Event.externalCall "get_lusas_modeller",
      Event.raised "Please save or close the current model before running."] := by
    rw [tunnel_script, if_pos hcond]
  have ha : abutment_script p st = [Event.externalCall "get_lusas_modeller",
      Event.raised "Save or close the current model before running this code"] := by
    rw [abutment_script, if_neg (not_not_intro hval), if_pos hcond]
  refine ⟨ht, ha, ?_, ?_⟩
  · rw [ht]
    simp
  · rw [ha]
    simp

/-- C8 witness: with the default (valid) dimensions and an open modified
database, both scripts stop at the raised exception and never call
`newProject`. -/
theorem unsaved_model_guard_witness :
    tunnel_script { existsDatabase := true, isModified := true } =
      [Event.externalCall "get_lusas_modeller",
       Event.raised "Please save or close the current model before running."] ∧
    abutment_script defaultDims { existsDatabase := true, isModified := true } =
      [Event.externalCall "get_lusas_modeller",
       Event.raised "Save or close the current model before running this code"] ∧
    Event.externalCall "newProject" ∉
      tunnel_script { existsDatabase := true, isModified := true } ∧
    Event.externalCall "newProject" ∉
      abutment_script defaultDims { existsDatabase := true, isModified := true } :=
  unsaved_model_guard defaultDims
    { existsDatabase := true, isModified := true } rfl rfl
    (by norm_num [errors, defaultDims])

end LusasScripts
